import Mathlib

/-!
Verification of the TI-99/4A cassette tape toolkit
(`ti99_4a_tape_encode.py`, `ti99_4a_tape_decode.py`, `ti99_4a_list_basic.py`)
against its natural-language specification.

The Python sources are shallowly embedded below: bytes are `Nat`
(with explicit `% 256` / `&&& 0xff` where the source masks), audio
levels are `Int`, the floating-point quantities of the decoder
(`symbol_len`, envelope state) are embedded as `ℚ`, and the stateful
classes become explicit state-passing functions.
-/

set_option maxRecDepth 8192

namespace TI99

/-- Decidable equality for `Except` results (used to evaluate the
embedded fallible functions on concrete inputs). -/
instance {ε : Type u} {α : Type v} [DecidableEq ε] [DecidableEq α] :
    DecidableEq (Except ε α) := fun x y =>
  match x, y with
  | .ok a, .ok b => decidable_of_iff (a = b) (by simp)
  | .ok _, .error _ => isFalse (fun h => Except.noConfusion h)
  | .error _, .ok _ => isFalse (fun h => Except.noConfusion h)
  | .error d, .error e => decidable_of_iff (d = e) (by simp)

/-! ## Encoder — `ti99_4a_tape_encode.py` -/

/-- `SYMBOL_LEN = 32` samples per bit at 44100 Hz. -/
def SYMBOL_LEN : Nat := 32

/-- `MAX_LEVEL = 0x7fff`, the initial output level. -/
def MAX_LEVEL : Int := 0x7fff

/-- One iteration of the `for j in xrange(0, 8)` loop of `write_byte`:
flip the level, emit `SYMBOL_LEN/2 = 16` samples at it, flip again if
the current MSB (`b & 0x80`) is set, emit 16 more samples, then shift
`b` left.  The first argument is the remaining iteration count. -/
def write_byte_aux : Nat → Nat → Int → List Int × Int
  | 0, _, lvl => ([], lvl)
  | n + 1, b, lvl =>
    let l1 := -lvl
    let l2 := if (b &&& 0x80) != 0 then -l1 else l1
    let rest := write_byte_aux n (b <<< 1) l2
    (List.replicate 16 l1 ++ List.replicate 16 l2 ++ rest.1, rest.2)

/-- `write_byte(b)` of the encoder: emits the 8 bits of `b`, MSB first,
32 samples per bit, threading the current output `level`.  Returns the
emitted samples and the final level.  Note the source never masks `b`,
so `b` may exceed 255 (as the running checksum does). -/
def write_byte (b : Nat) (lvl : Int) : List Int × Int :=
  write_byte_aux 8 b lvl

/-- Sequential `write_byte` over a list of byte values, threading the level. -/
def write_bytes : List Nat → Int → List Int × Int
  | [], lvl => ([], lvl)
  | b :: bs, lvl =>
    let fst := write_byte b lvl
    let rest := write_bytes bs fst.2
    (fst.1 ++ rest.1, rest.2)

/-- Input padding: `padding = 64 - (len(data) % 64); if padding != 64:
data += '\x80' * padding`. -/
def pad_data (data : List Nat) : List Nat :=
  let p := 64 - data.length % 64
  if p ≠ 64 then data ++ List.replicate p 0x80 else data

/-- `nrecords = int(math.ceil(len(data) / 64))` on the padded data;
Python-2 `/` on ints is integer division and the length is a multiple
of 64 after padding, so this is exact division. -/
def nrecords (data : List Nat) : Nat := (pad_data data).length / 64

/-- The running checksum of one record in the encoder's emission loop:
`chksum += b` over the 64 record bytes, with no masking. -/
def encoder_checksum (rec : List Nat) : Nat := rec.sum

/-- One copy of record `i`: 8 zero bytes, `0xFF`, the 64 record bytes
`data[i*64 .. i*64+63]`, then the raw running checksum. -/
def record_copy_bytes (data : List Nat) (i : Nat) : List Nat :=
  let rec_ := (data.drop (i * 64)).take 64
  List.replicate 8 0 ++ [0xff] ++ rec_ ++ [encoder_checksum rec_]

/-- The `for i in xrange(0, nrecords)` loop: two copies of every record,
in record order (`records_bytes data n` covers records `0 .. n-1`). -/
def records_bytes (data : List Nat) : Nat → List Nat
  | 0 => []
  | i + 1 =>
    records_bytes data i ++ (record_copy_bytes data i ++ record_copy_bytes data i)

/-- The full byte sequence handed to `write_byte` by the encoder main
program, for already-padded data: 768 zero sync bytes, `0xFF`, the
record count twice, then two copies of every record. -/
def tape_bytes (data : List Nat) : List Nat :=
  let n := data.length / 64
  List.replicate 768 0 ++ [0xff, n, n] ++ records_bytes data n

/-- Byte sequence emitted for raw input `data` (padding included). -/
def encoder_bytes (data : List Nat) : List Nat := tape_bytes (pad_data data)

/-- The complete sample waveform produced by the encoder for input `data`. -/
def tape_samples (data : List Nat) : List Int :=
  (write_bytes (encoder_bytes data) MAX_LEVEL).1

/-! ### Encoder lemmas -/

theorem and_255_eq_mod (n : Nat) : n &&& 0xff = n % 256 := by
  have h := Nat.and_pow_two_sub_one_eq_mod n 8
  norm_num at h
  exact h

theorem write_byte_aux_length (n : Nat) : ∀ (b : Nat) (lvl : Int),
    (write_byte_aux n b lvl).1.length = 32 * n := by
  induction n with
  | zero => intro b lvl; simp [write_byte_aux]
  | succ n ih =>
    intro b lvl
    simp only [write_byte_aux, List.length_append, List.length_replicate]
    rw [ih]
    ring

/-- `write_byte` always emits exactly 256 samples (8 bits × 32 samples),
whatever the value of `b`. -/
theorem write_byte_length (b : Nat) (lvl : Int) :
    (write_byte b lvl).1.length = 256 := by
  simpa using write_byte_aux_length 8 b lvl

theorem write_bytes_length (bs : List Nat) : ∀ (lvl : Int),
    (write_bytes bs lvl).1.length = 256 * bs.length := by
  induction bs with
  | nil => intro lvl; simp [write_bytes]
  | cons b bs ih =>
    intro lvl
    simp only [write_bytes, List.length_append, write_byte_length, ih, List.length_cons]
    ring

/-- Iteration `j` of `write_byte` looks only at bit `7 - j` of the
original argument: the tested value is `(b <<< j) &&& 0x80`. -/
theorem shifted_msb_eq_testBit (b j : Nat) (hj : j ≤ 7) :
    ((b <<< j) &&& 0x80 != 0) = b.testBit (7 - j) := by
  have h80 : (0x80 : Nat) = 2 ^ 7 := by norm_num
  rw [h80, Nat.and_two_pow, Nat.testBit_shiftLeft,
    decide_eq_true (show 7 ≥ j from hj)]
  cases h : b.testBit (7 - j) <;> simp [h]

theorem write_byte_aux_congr : ∀ (n : Nat) (b c : Nat) (lvl : Int),
    (∀ j, j < n → ((b <<< j) &&& 0x80 != 0) = ((c <<< j) &&& 0x80 != 0)) →
    write_byte_aux n b lvl = write_byte_aux n c lvl := by
  intro n
  induction n with
  | zero => intro b c lvl _; rfl
  | succ n ih =>
    intro b c lvl hbits
    have h0 : ((b &&& 0x80) != 0) = ((c &&& 0x80) != 0) := by
      have h := hbits 0 (Nat.succ_pos n)
      simpa [Nat.shiftLeft_zero] using h
    have hshift : ∀ j, j < n →
        (((b <<< 1) <<< j) &&& 0x80 != 0) = (((c <<< 1) <<< j) &&& 0x80 != 0) := by
      intro j hj
      rw [← Nat.shiftLeft_add, ← Nat.shiftLeft_add]
      exact hbits (1 + j) (by omega)
    simp only [write_byte_aux, h0, ih (b <<< 1) (c <<< 1) _ hshift]

/-- `write_byte` only depends on `b` modulo 256: values ≥ 256 emit the
same waveform as their low byte. -/
theorem write_byte_mod (b : Nat) (lvl : Int) :
    write_byte b lvl = write_byte (b % 256) lvl := by
  apply write_byte_aux_congr
  intro j hj
  have hj7 : j ≤ 7 := by omega
  rw [shifted_msb_eq_testBit b j hj7, shifted_msb_eq_testBit (b % 256) j hj7]
  have h256 : (256 : Nat) = 2 ^ 8 := by norm_num
  rw [h256, Nat.testBit_mod_two_pow,
    decide_eq_true (show 7 - j < 8 by omega)]
  simp

/-! ## DataProc — `ti99_4a_tape_decode.py`, record framing and recovery

State of a `DataProc` object.  The Python class stores byte strings;
they are embedded as `List Nat`.  `rec_primary_buf` / the matching
error mask are only assigned when a primary record fails, and
`__clear_state` does not touch them — they persist across programs. -/

structure DPState where
  buf : List Nat
  buf_error_mask : List Nat
  read_header : Bool
  rec_cnt : Nat
  rec_idx : Nat
  rec_primary : Bool
  rec_processed : Bool
  data_corrupt : Bool
  data : List Nat
  rec_primary_buf : List Nat
  rec_primary_error_mask : List Nat
deriving Repr, DecidableEq

/-- The two return constants of `DataProcIface.process_byte`
(`REQUEST_RESYNC` / `NOTIFY_DONE`); `none` models a plain `return`. -/
inductive DPResp where
  | resync
  | done
deriving Repr, DecidableEq

/-- `DataProc.__clear_state`: resets everything except
`rec_primary_buf` / `rec_primary_error_mask` (the source does not
reset those fields). -/
def dp_clear_state (s : DPState) : DPState :=
  { s with
    buf := [], buf_error_mask := [],
    read_header := true, rec_cnt := 0, rec_idx := 0,
    rec_primary := true, rec_processed := false,
    data_corrupt := false, data := [] }

/-- A fresh `DataProc` (constructor calls `__clear_state`; the
primary-record fields start out unset, embedded as `[]`). -/
def dp_init : DPState :=
  { buf := [], buf_error_mask := [], read_header := true,
    rec_cnt := 0, rec_idx := 0, rec_primary := true,
    rec_processed := false, data_corrupt := false, data := [],
    rec_primary_buf := [], rec_primary_error_mask := [] }

/-- `DataProc.__verify_record`: a 65-byte buffer is valid when the sum
of its first 64 bytes, accumulated with `& 0xff` at each step, equals
its last byte.  Any other buffer length fails (the `ASSERT` branch). -/
def verify_record (buf : List Nat) : Bool :=
  if buf.length ≠ 65 then false
  else
    let chksum := buf.dropLast.foldl (fun a x => (a + x) &&& 0xff) 0
    chksum == buf.getD 64 0

/-- `DataProc.__recover_record`: bitwise-OR reconstruction of the two
failed copies.  Returns the updated state and the success flag.  The
buffer is replaced by the reconstruction only when every byte position
has disjoint error masks; the final answer is the checksum of the
reconstructed buffer. -/
def recover_record (s : DPState) : DPState × Bool :=
  if s.rec_primary_buf.isEmpty then (s, false)
  else if s.buf.length ≠ s.rec_primary_buf.length then (s, false)
  else if (List.range s.buf.length).any (fun i =>
      ((s.rec_primary_error_mask.getD i 0) &&& (s.buf_error_mask.getD i 0)) != 0)
    then (s, false)
  else
    let s1 := { s with buf := (List.range s.buf.length).map (fun i =>
      (s.buf.getD i 0) ||| (s.rec_primary_buf.getD i 0)) }
    (s1, verify_record s1.buf)

/-- `DataProc._process_record`.  Note that `record_data` is sliced from
`self.__buf` at entry, before `__recover_record` overwrites the buffer
with the reconstruction — so the reconstruction branch appends the raw
(corrupt) secondary payload.  The `data_complete` file output is not
modeled; the assembled payload lives in `.data`. -/
def process_record (s : DPState) : DPState × Option DPResp :=
  let record_data := s.buf.dropLast
  let record_valid := if s.buf.isEmpty then false else verify_record s.buf
  let s1 :=
    if s.rec_primary then
      let sa :=
        if record_valid then
          { s with data := s.data ++ record_data, rec_processed := true }
        else
          { s with rec_primary_buf := s.buf,
                   rec_primary_error_mask := s.buf_error_mask }
      { sa with rec_primary := false }
    else
      let sb :=
        if ¬ s.rec_processed then
          if record_valid then
            { s with data := s.data ++ record_data }
          else
            let rec_ := recover_record s
            if ¬ rec_.2 then
              { rec_.1 with data_corrupt := true }
            else
              { rec_.1 with data := rec_.1.data ++ record_data }
        else if record_valid then
          if s.data.drop (s.data.length - 64) ≠ record_data then
            { s with data_corrupt := true }
          else s
        else s
      { sb with rec_primary := true, rec_processed := false,
                rec_idx := s.rec_idx + 1 }
  let s2 := { s1 with buf := [], buf_error_mask := [] }
  if s2.rec_idx == s2.rec_cnt then
    (dp_clear_state s2, some DPResp.done)
  else
    (s2, some DPResp.resync)

/-- `DataProc._process_header`: fires only once two bytes are buffered.
Mismatching bytes clear the state and notify `DONE`; matching bytes
set `rec_cnt` and request a resync.  On success only `__buf` is
cleared — the error-mask buffer keeps its two header entries. -/
def process_header (s : DPState) : DPState × Option DPResp :=
  if s.buf.length == 2 then
    if s.buf.getD 0 0 ≠ s.buf.getD 1 0 then
      (dp_clear_state s, some DPResp.done)
    else
      ({ s with rec_cnt := s.buf.getD 0 0, rec_idx := 0,
                read_header := false, buf := [] },
       some DPResp.resync)
  else (s, none)

/-- `DataProc.process_byte`: append the byte and its error mask, then
dispatch to header or record processing. -/
def dp_process_byte (s : DPState) (val bit_error_mask : Nat) :
    DPState × Option DPResp :=
  let s1 := { s with buf := s.buf ++ [val],
                     buf_error_mask := s.buf_error_mask ++ [bit_error_mask] }
  if s1.read_header then process_header s1
  else if s1.buf.length == 64 + 1 then process_record s1
  else (s1, none)

/-! ## BitProc — `ti99_4a_tape_decode.py`, edges to bits -/

/-- `MAX_INITIAL_SYNC_SYMBOLS = 800 * 8`. -/
def MAX_INITIAL_SYNC_SYMBOLS : Nat := 800 * 8

/-- `MAX_RECORD_SYNC_SYMBOLS = 8 * 8`. -/
def MAX_RECORD_SYNC_SYMBOLS : Nat := 8 * 8

/-- `END_OF_SYNC_SYMBOLS = 8`. -/
def END_OF_SYNC_SYMBOLS : Nat := 8

/-- Python-2 `round`: round half away from zero (the script runs under
Python 2 — it uses `xrange` and byte strings).  `int()` of the
resulting whole float is the same integer. -/
def pyRound (q : ℚ) : Int :=
  if q < 0 then -⌊-q + 1 / 2⌋ else ⌊q + 1 / 2⌋

/-- Decoder configuration profile (the `CONFIG` global). -/
structure BPConfig where
  use_peak : Bool
  training_threshold : Nat
  min_bit_len : ℚ
  hysteresis : ℚ
  max_bit_diff : ℚ
  range_decay : ℚ
  continues_resync : Bool
deriving Repr, DecidableEq

/-- State of a `BitProc` object.  Frame indices are `Int`; the trained
`symbol_len` is the one fractional quantity (`ℚ` for the Python float). -/
structure BPState where
  last_edge_idx : Int
  training : Bool
  training_matches : List Int
  training_start : Int
  edge_cnt : Nat
  resync : Bool
  resync_start_idx : Int
  resync_max_symbol : Nat
  symbol_len : ℚ
  edges_within_symbol : Nat
  byte : Nat
  bit_error_mask : Nat
  bit_cnt : Nat
deriving Repr, DecidableEq

/-- `BitProc.__clear_state` (also the freshly constructed state):
back to TRAINING with everything zeroed. -/
def bp_clear_state : BPState :=
  { last_edge_idx := 0, training := true, training_matches := [],
    training_start := 0, edge_cnt := 0, resync := false,
    resync_start_idx := 0, resync_max_symbol := 0, symbol_len := 0,
    edges_within_symbol := 0, byte := 0, bit_error_mask := 0, bit_cnt := 0 }

/-- `BitProc._start_resync`: enter RESYNC with budget
`max_symbols + END_OF_SYNC_SYMBOLS + 8`, clearing the byte accumulator
and the intra-symbol edge count. -/
def bp_start_resync (frame_idx : Int) (max_symbols : Nat) (bp : BPState) :
    BPState :=
  { bp with resync := true, resync_start_idx := frame_idx,
            resync_max_symbol := max_symbols + END_OF_SYNC_SYMBOLS + 8,
            byte := 0, edges_within_symbol := 0 }

/-- The response handling of `_process_symbol_active` when a full byte
has been handed to DataProc: `REQUEST_RESYNC` enters RESYNC with the
inter-record budget, `NOTIFY_DONE` clears all BitProc state (returning
to TRAINING) and cancels any pending missed-symbol recursion. -/
def handle_byte_resp (bp : BPState) (frame_idx : Int)
    (ret : Option DPResp) (recurse : Bool) : BPState × Bool :=
  match ret with
  | some DPResp.resync => (bp_start_resync frame_idx MAX_RECORD_SYNC_SYMBOLS bp, recurse)
  | some DPResp.done => (bp_clear_state, false)
  | none => (bp, recurse)

/-- `BitProc._process_symbol_active`.  Returns the new BitProc state,
the new DataProc state, and the trace of `(byte, bit_error_mask)`
pairs handed to `DataProc.process_byte`.  In both the boundary and the
missed-symbol branch the source computes the bit as the parity of
`edges_within_symbol`; only the missed branch flags it in the error
mask and re-presents the residual interval `level_len - symbol_len`.
The self-recursion is bounded by a fuel parameter (an embedding
device; the fuel is chosen large enough for every input considered). -/
def process_symbol_active (cfg : BPConfig) :
    Nat → BPState → DPState → Int → Int → BPState × DPState × List (Nat × Nat)
  | 0, bp, dp, _, _ => (bp, dp, [])
  | fuel + 1, bp, dp, frame_idx, level_len =>
    let expected : Int :=
      pyRound ((bp.training_start : ℚ) + ((bp.edge_cnt : ℚ) + 1) * bp.symbol_len)
    let atBoundary : Bool :=
      decide (((|frame_idx - expected| : Int) : ℚ) < bp.symbol_len * cfg.max_bit_diff)
    if !atBoundary && decide (frame_idx < expected) then
      -- edge within symbol
      ({ bp with edges_within_symbol := bp.edges_within_symbol + 1 }, dp, [])
    else
      let bit := bp.edges_within_symbol % 2
      let bit_error : Nat := if atBoundary then 0 else 1
      let recurse : Bool := !atBoundary
      let bp1 := { bp with
        edges_within_symbol := 0,
        edge_cnt := bp.edge_cnt + 1,
        byte := ((bp.byte <<< 1) ||| bit) &&& 0xff,
        bit_error_mask := ((bp.bit_error_mask <<< 1) ||| bit_error) &&& 0xff,
        bit_cnt := bp.bit_cnt + 1 }
      let stepped : BPState × DPState × Bool × List (Nat × Nat) :=
        if bp1.bit_cnt == 8 then
          let pr := dp_process_byte dp bp1.byte bp1.bit_error_mask
          let hb := handle_byte_resp bp1 frame_idx pr.2 recurse
          ({ hb.1 with bit_cnt := 0, byte := 0 }, pr.1, hb.2,
           [(bp1.byte, bp1.bit_error_mask)])
        else (bp1, dp, recurse, [])
      let bp2 := stepped.1
      let dp2 := stepped.2.1
      let recurse2 := stepped.2.2.1
      let trace := stepped.2.2.2
      let bp3 :=
        if cfg.continues_resync then
          { bp2 with
            training_start := if recurse2 then expected else frame_idx,
            edge_cnt := 0 }
        else bp2
      if recurse2 then
        let nxt := process_symbol_active cfg fuel bp3 dp2 frame_idx
          (pyRound ((level_len : ℚ) - bp.symbol_len))
        (nxt.1, nxt.2.1, trace ++ nxt.2.2)
      else (bp3, dp2, trace)

/-! ## SignalProc — `ti99_4a_tape_decode.py`, samples to edges -/

/-- State of a `SignalProc` object.  Python floats become `ℚ`;
`level` is `false` for 0 (low) and `true` for 1 (high). -/
structure SPState where
  range_max : ℚ
  range_min : ℚ
  level : Bool
  peak : ℚ
  peak_idx : Nat
  frame_idx : Nat
deriving Repr, DecidableEq

/-- A fresh `SignalProc` (constructor values; `idle` and the debug
wave are unused by the sample processing and not modeled). -/
def sp_init : SPState :=
  { range_max := -0x10000, range_min := 0x10000, level := false,
    peak := 0, peak_idx := 0, frame_idx := 0 }

/-- Envelope update for one sample: decay both tops, then saturate on
the new sample. -/
def sp_envelope (cfg : BPConfig) (s : SPState) (sample : ℚ) : ℚ × ℚ :=
  let rmax0 := s.range_max * cfg.range_decay
  let rmin0 := s.range_min * cfg.range_decay
  let rmax := if sample > rmax0 then sample else rmax0
  let rmin := if sample < rmin0 then sample else rmin0
  (rmax, rmin)

/-- The dynamic threshold for one sample,
`threshold = range_min + dyn_range / 2` after the envelope update. -/
def sp_threshold (cfg : BPConfig) (s : SPState) (sample : ℚ) : ℚ :=
  let env := sp_envelope cfg s sample
  env.2 + (env.1 - env.2) / 2

/-- The hysteresis band `(dyn_range / 2) * hysteresis` for one sample. -/
def sp_hband (cfg : BPConfig) (s : SPState) (sample : ℚ) : ℚ :=
  let env := sp_envelope cfg s sample
  ((env.1 - env.2) / 2) * cfg.hysteresis

/-- Peak tracking for one sample (runs before edge detection, with the
pre-transition level): the peak and its frame index are replaced only
when the sample is more extreme with respect to the current level. -/
def sp_peak_update (s : SPState) (sample : ℚ) : ℚ × Nat :=
  if (s.level = true ∧ sample > s.peak) ∨ (s.level = false ∧ sample < s.peak) then
    (sample, s.frame_idx)
  else (s.peak, s.peak_idx)

/-- `SignalProc.process_sample`: envelope update, peak tracking, then
edge detection with hysteresis.  Returns the new state and the edge
event passed to `BitProc.process_edge`
(`(frame_idx, peak_idx, new_level)`), if any. -/
def sp_process_sample (cfg : BPConfig) (s : SPState) (sample : ℚ) :
    SPState × Option (Nat × Nat × Bool) :=
  let env := sp_envelope cfg s sample
  let threshold := sp_threshold cfg s sample
  let hband := sp_hband cfg s sample
  let pk := sp_peak_update s sample
  let base := { s with range_max := env.1, range_min := env.2,
                       peak := pk.1, peak_idx := pk.2,
                       frame_idx := s.frame_idx + 1 }
  if s.level = false ∧ sample > threshold + hband then
    ({ base with level := true }, some (s.frame_idx, pk.2, true))
  else if s.level = true ∧ sample < threshold - hband then
    ({ base with level := false }, some (s.frame_idx, pk.2, false))
  else
    (base, none)

/-! ## BASIC lister — `ti99_4a_list_basic.py` -/

/-- `HDR_LEN = 8`. -/
def HDR_LEN : Nat := 8

/-- Big-endian 16-bit read (`struct.unpack_from('>H', ...)`); callers
only read in-bounds offsets. -/
def u16be (data : List Nat) (off : Nat) : Nat :=
  data.getD off 0 * 256 + data.getD (off + 1) 0

/-- Big-endian *signed* 16-bit read (`struct.unpack_from('>h', ...)`). -/
def i16be (data : List Nat) (off : Nat) : Int :=
  let v := u16be data off
  if v ≥ 0x8000 then (v : Int) - 0x10000 else (v : Int)

/-- `parse_header`: needs 8 bytes and
`(line_table_start ^^^ line_table_end) == (chkword &&& 0x7fff)`.
Returns `(chkword, line_table_start, line_table_end, memory_end)`;
both failure paths (undersized data, checksum) are errors. -/
def parse_header (data : List Nat) :
    Except String (Nat × Nat × Nat × Nat) :=
  if data.length < HDR_LEN then .error "data to small to fit header"
  else
    let chkword := u16be data 0
    let lts := u16be data 2
    let lte := u16be data 4
    let mem := u16be data 6
    if lts ^^^ lte ≠ chkword &&& 0x7fff then .error "header checksum failure"
    else .ok (chkword, lts, lte, mem)

/-- `parse_line_table`, taking the two header fields it reads.
`lt_len = line_table_start + 1 - line_table_end` may be zero or
negative (Python ints); the `range(0, lt_len, 4)` loop then simply
runs zero iterations and an empty table is returned.  Entries are
listed in loop order; the Python dict would deduplicate repeated line
numbers (never exercised here). -/
def parse_line_table (data : List Nat) (lts lte : Nat) :
    Except String (List (Nat × Int)) :=
  let lt_len : Int := (lts : Int) + 1 - (lte : Int)
  if lt_len + HDR_LEN > (data.length : Int) then
    .error "Line table length to big for data"
  else if lt_len % 4 ≠ 0 then
    .error "Line table length not multiple of 4"
  else
    .ok ((List.range (lt_len.toNat / 4)).map (fun (k : Nat) =>
      let off := (8 + lt_len - 4 - 4 * (k : Int)).toNat
      (u16be data off,
       (u16be data (off + 2) : Int) - ((lts : Int) + 1) + 8 + lt_len - 1)))

/-- Identifier start characters accepted by `decode_line`:
`A-Z a-z \ [ ] _ @`. -/
def isIdentStart (t : Nat) : Bool :=
  (65 ≤ t && t ≤ 90) || (97 ≤ t && t ≤ 122) ||
  t == 0x5c || t == 0x5b || t == 0x5d || t == 0x5f || t == 0x40

/-- Identifier continuation characters: `A-Z a-z 0-9 $ _ @`.  (The
source also tests `token == '\\'` etc., comparing an `int` against a
string — identically false in Python, so dropped here.) -/
def isIdentCont (c : Nat) : Bool :=
  (65 ≤ c && c ≤ 90) || (97 ≤ c && c ≤ 122) || (48 ≤ c && c ≤ 57) ||
  c == 36 || c == 95 || c == 64

/-- The fixed strings of the one-byte tokens of `decode_line`'s
`elif` chain (the special tokens 0x83, 0x9A, 0xC7, 0xC8, 0xC9 and the
identifier characters are handled separately). -/
def simple_token (t : Nat) : Option String :=
  match t with
  | 0x81 => some "ELSE "
  | 0x82 => some " :: "
  | 0x84 => some "IF "
  | 0x85 => some "GO "
  | 0x86 => some "GOTO "
  | 0x87 => some "GOSUB "
  | 0x88 => some "RETURN "
  | 0x89 => some "DEF "
  | 0x8a => some "DIM "
  | 0x8b => some "END "
  | 0x8c => some "FOR "
  | 0x8d => some "LET "
  | 0x8e => some "BREAK "
  | 0x8f => some "UNBREAK "
  | 0x90 => some "TRACE "
  | 0x91 => some "UNTRACE "
  | 0x92 => some "INPUT "
  | 0x93 => some "DATA "
  | 0x94 => some "RESTORE "
  | 0x95 => some "RANDOMIZE "
  | 0x96 => some "NEXT "
  | 0x97 => some "READ "
  | 0x98 => some "STOP "
  | 0x99 => some "DELETE "
  | 0x9b => some "ON "
  | 0x9c => some "PRINT "
  | 0x9d => some "CALL "
  | 0x9e => some "OPTION "
  | 0x9f => some "OPEN "
  | 0xa0 => some "CLOSE "
  | 0xa1 => some "SUB "
  | 0xa2 => some "DISPLAY "
  | 0xa3 => some "IMAGE "
  | 0xa4 => some "ACCEPT "
  | 0xa5 => some "ERROR "
  | 0xa6 => some "WARNING "
  | 0xa7 => some "SUBEXIT "
  | 0xa8 => some "SUBEND "
  | 0xa9 => some "RUN "
  | 0xaa => some "LINPUT "
  | 0xb0 => some "THEN "
  | 0xb1 => some "TO "
  | 0xb2 => some "STEP "
  | 0xb3 => some ", "
  | 0xb4 => some " ; "
  | 0xb5 => some " : "
  | 0xb6 => some ") "
  | 0xb7 => some "( "
  | 0xb8 => some "& "
  | 0xba => some "OR "
  | 0xbb => some "AND "
  | 0xbc => some "XOR "
  | 0xbd => some "NOT "
  | 0xbe => some "= "
  | 0xbf => some "< "
  | 0xc0 => some "> "
  | 0xc1 => some "+ "
  | 0xc2 => some "- "
  | 0xc3 => some "* "
  | 0xc4 => some "/ "
  | 0xc5 => some "^ "
  | 0xca => some "EOF "
  | 0xcb => some "ABS "
  | 0xcc => some "ATN "
  | 0xcd => some "COS "
  | 0xce => some "EXP "
  | 0xcf => some "INT "
  | 0xd0 => some "LOG "
  | 0xd1 => some "SGN "
  | 0xd2 => some "SIN "
  | 0xd3 => some "SQR "
  | 0xd4 => some "TAN "
  | 0xd5 => some "LEN "
  | 0xd6 => some "CHR$ "
  | 0xd7 => some "RND "
  | 0xd8 => some "SEG$ "
  | 0xd9 => some "POS "
  | 0xda => some "VAL "
  | 0xdb => some "STR$ "
  | 0xdc => some "ASC "
  | 0xdd => some "PI "
  | 0xde => some "REC "
  | 0xdf => some "MAX "
  | 0xe0 => some "MIN "
  | 0xe1 => some "RPT$ "
  | 0xe8 => some "NUMERIC "
  | 0xe9 => some "DIGIT "
  | 0xea => some "UALPHA "
  | 0xeb => some "SIZE "
  | 0xec => some "ALL "
  | 0xed => some "USING "
  | 0xee => some "BEEP "
  | 0xef => some "ERASE "
  | 0xf0 => some "AT "
  | 0xf1 => some "BASE "
  | 0xf3 => some "VARIABLE "
  | 0xf4 => some "RELATIVE "
  | 0xf5 => some "INTERNAL "
  | 0xf6 => some "SEQUENTIAL "
  | 0xf7 => some "OUTPUT "
  | 0xf8 => some "UPDATE "
  | 0xf9 => some "APPEND "
  | 0xfa => some "FIXED "
  | 0xfb => some "PERMANENT "
  | 0xfc => some "TAB "
  | 0xfd => some "# "
  | 0xfe => some "VALIDATE "
  | _ => none

/-- Latin-1 decoding of a byte slice (`.decode(encoding='latin-1')`). -/
def pyStr (cs : List Nat) : String := String.mk (cs.map Char.ofNat)

/-- The inner identifier `while` loop of `decode_line`.  Reads
`data[addr + off]` (an out-of-range read raises `IndexError`, an
uncaught exception, modeled as an error); identifier characters are
consumed greedily, `$` terminates the identifier, and a trailing
space is appended on exit.  Fuel-bounded (embedding device). -/
def ident_loop (data : List Nat) (addr : Nat) :
    Nat → Nat → String → Except String (Nat × String)
  | 0, _, _ => .error "fuel exhausted"
  | fuel + 1, off, line =>
    if addr + off ≥ data.length then .error "IndexError"
    else
      let c := data.getD (addr + off) 0
      if isIdentCont c then
        if c == 36 then .ok (off + 1, (line.push (Char.ofNat c)) ++ " ")
        else ident_loop data addr fuel (off + 1) (line.push (Char.ofNat c))
      else .ok (off, line ++ " ")

/-- The token `while off < line_len` loop of `decode_line`.
Fuel-bounded (embedding device; `decode_line` supplies enough fuel). -/
def decode_line_loop (data : List Nat) (addr line_len : Nat) :
    Nat → Nat → String → Except String String
  | 0, _, _ => .error "fuel exhausted"
  | fuel + 1, off, line =>
    if off ≥ line_len then .ok line
    else
      let token := data.getD (addr + off) 0
      let off1 := off + 1
      if token == 0x83 then
        decode_line_loop data addr line_len fuel line_len
          (line ++ " ! " ++ pyStr ((data.drop (addr + off1)).take (line_len - off1)))
      else if token == 0x9a then
        decode_line_loop data addr line_len fuel line_len
          (line ++ "REM " ++ pyStr ((data.drop (addr + off1)).take (line_len - off1)))
      else if token == 0xc7 then
        if off1 + 1 > line_len then .error "Quoted str. argument beyond EOL"
        else
          let arg_len := data.getD (addr + off1) 0
          let off2 := off1 + 1
          if off2 + arg_len > line_len then .error "Quoted str. argument beyond EOL"
          else
            decode_line_loop data addr line_len fuel (off2 + arg_len)
              (line ++ "\"" ++ pyStr ((data.drop (addr + off2)).take arg_len) ++ "\" ")
      else if token == 0xc8 then
        if off1 + 1 > line_len then .error "Unquoted str. argument beyond EOL"
        else
          let arg_len := data.getD (addr + off1) 0
          let off2 := off1 + 1
          if off2 + arg_len > line_len then .error "Unquoted str. argument beyond EOL"
          else
            decode_line_loop data addr line_len fuel (off2 + arg_len)
              (line ++ pyStr ((data.drop (addr + off2)).take arg_len) ++ " ")
      else if token == 0xc9 then
        if off1 + 2 > line_len then .error "line # argument beyond EOL"
        else
          decode_line_loop data addr line_len fuel (off1 + 2)
            (line ++ toString (i16be data (addr + off1)))
      else
        match simple_token token with
        | some s => decode_line_loop data addr line_len fuel off1 (line ++ s)
        | none =>
          if isIdentStart token then
            match ident_loop data addr fuel off1 (line.push (Char.ofNat token)) with
            | .ok r => decode_line_loop data addr line_len fuel r.1 r.2
            | .error e => .error e
          else .error "Invalid token"

/-- `decode_line(data, addr)`: bounds checks, the EOL-byte check, then
the token loop.  Failures are the source's `DecodeException`s plus the
uncaught `IndexError`s of out-of-range reads. -/
def decode_line (data : List Nat) (addr : Nat) : Except String String :=
  if addr ≥ data.length then .error "IndexError"
  else
    let line_len := data.getD addr 0
    if addr + line_len ≥ data.length then .error "Line length beyond end of data"
    else if data.getD (addr + line_len) 0 ≠ 0 then .error "DECODE ERROR: Invalid EOL byte"
    else decode_line_loop data addr line_len (data.length + line_len + 2) 1 ""

/-- Decoding of one line-table entry as invoked by the main listing
loop (negative addresses, which Python would index from the end of
the byte string, do not arise in the inputs considered). -/
def decode_entry (data : List Nat) (e : Nat × Int) : Except String String :=
  if e.2 < 0 then .error "negative address"
  else decode_line data e.2.toNat

/-- The `for line in sorted(lt): print(...)` loop on an already-sorted
table.  `decode_line` is evaluated before each `print`; a failure
raises an uncaught exception, so the listing stops: the first
component collects the `(line number, text)` pairs actually printed,
the second is `true` iff the loop aborted. -/
def list_lines (data : List Nat) :
    List (Nat × Int) → List (Nat × String) × Bool
  | [] => ([], false)
  | e :: rest =>
    match decode_entry data e with
    | .ok line =>
      let tail := list_lines data rest
      ((e.1, line) :: tail.1, tail.2)
    | .error _ => ([], true)

/-- Insertion into a line-number-sorted table. -/
def insert_by_line (x : Nat × Int) : List (Nat × Int) → List (Nat × Int)
  | [] => [x]
  | y :: ys => if x.1 ≤ y.1 then x :: y :: ys else y :: insert_by_line x ys

/-- `sorted(lt)`: iterate the table in ascending line-number order. -/
def sort_by_line (lt : List (Nat × Int)) : List (Nat × Int) :=
  lt.foldr insert_by_line []

/-- The main listing loop: sort the table, then list until done or
until a line fails to decode. -/
def list_program (data : List Nat) (lt : List (Nat × Int)) :
    List (Nat × String) × Bool :=
  list_lines data (sort_by_line lt)

/-! ## Claim theorems -/

theorem foldl_and255_eq_mod (l : List Nat) : ∀ (a : Nat), a < 256 →
    l.foldl (fun a x => (a + x) &&& 0xff) a = (a + l.sum) % 256 := by
  induction l with
  | nil =>
    intro a ha
    simp [Nat.mod_eq_of_lt ha]
  | cons x l ih =>
    intro a ha
    simp only [List.foldl_cons, List.sum_cons]
    rw [and_255_eq_mod, ih ((a + x) % 256) (Nat.mod_lt _ (by norm_num)),
      Nat.mod_add_mod]
    omega

theorem verify_record_iff (buf : List Nat) (h : buf.length = 65) :
    verify_record buf = true ↔ buf.getD 64 0 = (buf.take 64).sum % 256 := by
  have hne : ¬ buf.length ≠ 65 := by omega
  have hdl : buf.dropLast = buf.take 64 := by
    rw [List.dropLast_eq_take, h]
  simp only [verify_record, hne, if_false, hdl,
    foldl_and255_eq_mod (buf.take 64) 0 (by norm_num), Nat.zero_add,
    beq_iff_eq]
  exact eq_comm

/-- C1: the decoder's record verification succeeds on a 65-byte buffer
exactly when the last byte equals the mod-256 sum of the first 64
bytes, and the checksum byte emitted by the encoder (accumulated
without masking) is transmitted as the mod-256 sum of the payload
bytes, since `write_byte` only depends on its argument modulo 256. -/
theorem c1_checksum_law :
    (∀ buf : List Nat, buf.length = 65 →
      (verify_record buf = true ↔ buf.getD 64 0 = (buf.take 64).sum % 256)) ∧
    (∀ (P : List Nat) (lvl : Int),
      write_byte (encoder_checksum P) lvl = write_byte (P.sum % 256) lvl) :=
  ⟨verify_record_iff, fun P lvl => write_byte_mod P.sum lvl⟩

/-- Witness for C1 at a concrete buffer: 64 bytes `0x01` followed by
the checksum byte `0x40`. -/
theorem c1_checksum_law_witness :
    verify_record (List.replicate 64 1 ++ [64]) = true :=
  (c1_checksum_law.1 (List.replicate 64 1 ++ [64]) (by decide)).mpr (by decide)

/-- C10: `write_byte b` emits the same 256-sample waveform (and leaves
the same output level) as `write_byte (b % 256)`; in particular the
unmasked running checksum is transmitted as the payload sum mod 256. -/
theorem c10_write_byte_mod_256 (b : Nat) (lvl : Int) :
    write_byte b lvl = write_byte (b % 256) lvl ∧
    (write_byte b lvl).1.length = 256 ∧
    (∀ rec_ : List Nat,
      write_byte (encoder_checksum rec_) lvl = write_byte (rec_.sum % 256) lvl) :=
  ⟨write_byte_mod b lvl, write_byte_length b lvl,
   fun rec_ => write_byte_mod rec_.sum lvl⟩

theorem write_bytes_map_mod (bs : List Nat) : ∀ (lvl : Int),
    write_bytes bs lvl = write_bytes (bs.map (· % 256)) lvl := by
  induction bs with
  | nil => intro lvl; rfl
  | cons b bs ih =>
    intro lvl
    simp only [List.map_cons, write_bytes]
    rw [write_byte_mod, ih]

/-- C6: for a 64-byte payload the encoder produces exactly one record;
the byte sequence handed to `write_byte` is 768 zero bytes, `0xFF`,
the record count (1) twice, then two copies of (8 zero bytes, `0xFF`,
the payload, the checksum); the emitted waveform equals that of the
same sequence with the checksum reduced mod 256; and since every byte
is emitted MSB-first at 32 samples per bit, the waveform has exactly
`(768 + 1 + 1 + 1 + 2*(8 + 1 + 64 + 1)) * 8 * 32` samples. -/
theorem c6_encoder_output (P : List Nat) (h : P.length = 64)
    (hP : ∀ b ∈ P, b < 256) :
    nrecords P = 1 ∧
    encoder_bytes P =
      List.replicate 768 0 ++ [0xff, 1, 1] ++
        ((List.replicate 8 0 ++ [0xff] ++ P ++ [P.sum]) ++
         (List.replicate 8 0 ++ [0xff] ++ P ++ [P.sum])) ∧
    write_bytes (encoder_bytes P) MAX_LEVEL =
      write_bytes (List.replicate 768 0 ++ [0xff, 1, 1] ++
        ((List.replicate 8 0 ++ [0xff] ++ P ++ [P.sum % 256]) ++
         (List.replicate 8 0 ++ [0xff] ++ P ++ [P.sum % 256]))) MAX_LEVEL ∧
    (tape_samples P).length = (768 + 1 + 1 + 1 + 2 * (8 + 1 + 64 + 1)) * 8 * 32 := by
  have hpad : pad_data P = P := by
    simp [pad_data, h]
  have hn : P.length / 64 = 1 := by rw [h]
  have hrec : record_copy_bytes P 0 = List.replicate 8 0 ++ [0xff] ++ P ++ [P.sum] := by
    simp only [record_copy_bytes, encoder_checksum, Nat.zero_mul, List.drop_zero]
    rw [← h, List.take_length]
  have hbytes : encoder_bytes P =
      List.replicate 768 0 ++ [0xff, 1, 1] ++
        ((List.replicate 8 0 ++ [0xff] ++ P ++ [P.sum]) ++
         (List.replicate 8 0 ++ [0xff] ++ P ++ [P.sum])) := by
    simp only [encoder_bytes, hpad, tape_bytes, hn, records_bytes, hrec,
      List.nil_append]
  have hmodP : P.map (· % 256) = P := by
    calc P.map (· % 256)
        = P.map id := List.map_congr_left (fun a ha => Nat.mod_eq_of_lt (hP a ha))
      _ = P := List.map_id P
  refine ⟨?_, hbytes, ?_, ?_⟩
  · simp [nrecords, hpad, hn]
  · rw [hbytes, write_bytes_map_mod]
    congr 1
    simp only [List.map_append, List.map_replicate, List.map_cons,
      List.map_nil, hmodP]
  · simp [tape_samples, write_bytes_length, hbytes, h]

/-- Witness for C6 at the payload `0x01 .. 0x40`. -/
theorem c6_encoder_output_witness :
    nrecords ((List.range 64).map (· + 1)) = 1 ∧
    (tape_samples ((List.range 64).map (· + 1))).length = 235264 := by
  have h := c6_encoder_output ((List.range 64).map (· + 1)) (by decide) (by decide)
  exact ⟨h.1, h.2.2.2.trans (by norm_num)⟩

/-- C4: with one header byte buffered the decoder keeps collecting
(nothing is returned and it stays in header mode); on the second byte,
a mismatch clears the whole DataProc state (dropping any data) and
returns `NOTIFY_DONE` — on which BitProc clears its own state back to
TRAINING — while a match stores the common value as the record count
and returns `REQUEST_RESYNC`. -/
theorem c4_header_processing :
    (∀ (s : DPState) (b m : Nat), s.read_header = true → s.buf.length = 0 →
      (dp_process_byte s b m).2 = none ∧
      (dp_process_byte s b m).1.read_header = true) ∧
    (∀ (s : DPState) (b m : Nat), s.read_header = true → s.buf.length = 1 →
      (b ≠ s.buf.getD 0 0 →
        (dp_process_byte s b m).1 = dp_clear_state s ∧
        (dp_process_byte s b m).1.data = [] ∧
        (dp_process_byte s b m).2 = some DPResp.done) ∧
      (b = s.buf.getD 0 0 →
        (dp_process_byte s b m).1.rec_cnt = b ∧
        (dp_process_byte s b m).1.read_header = false ∧
        (dp_process_byte s b m).1.rec_idx = 0 ∧
        (dp_process_byte s b m).2 = some DPResp.resync)) ∧
    (∀ (bp : BPState) (f : Int) (r : Bool),
      handle_byte_resp bp f (some DPResp.done) r = (bp_clear_state, false) ∧
      bp_clear_state.training = true) := by
  refine ⟨?_, ?_, ?_⟩
  · intro s b m hrh hlen
    have hb : s.buf = [] := List.length_eq_zero.mp hlen
    simp [dp_process_byte, process_header, hrh, hb]
  · intro s b m hrh hlen
    obtain ⟨x, hx⟩ : ∃ x, s.buf = [x] := List.length_eq_one.mp hlen
    constructor
    · intro hne
      have hxb : x ≠ b := by
        intro he
        exact hne (by simp [hx, he])
      simp [dp_process_byte, process_header, hrh, hx, hxb, dp_clear_state]
    · intro heq
      have hxb : x = b := by
        have := heq
        simp [hx] at this
        omega
      simp [dp_process_byte, process_header, hrh, hx, hxb]
  · intro bp f r
    exact ⟨rfl, rfl⟩

/-- Witness for C4: a mismatching second header byte (`3` then `4`)
abandons the program, and a matching one (`3` then `3`) sets the
record count. -/
theorem c4_header_processing_witness :
    (dp_process_byte { dp_init with buf := [3], buf_error_mask := [0] } 4 0).2 =
      some DPResp.done ∧
    (dp_process_byte { dp_init with buf := [3], buf_error_mask := [0] } 3 0).1.rec_cnt = 3 := by
  have h := c4_header_processing.2.1
    { dp_init with buf := [3], buf_error_mask := [0] }
  exact ⟨((h 4 0 rfl rfl).1 (by decide)).2.2, ((h 3 0 rfl rfl).2 (by decide)).1⟩

/-- A DataProc state in which the primary copy of record 1 failed its
checksum (payload byte 0 read as `0x00`, error-mask bit `0x01`) and
the secondary copy, just completed, also fails (payload byte 1 read as
`0x00`, error-mask bit `0x02`).  The true record is payload
`[1, 2, 0, ..., 0]` with checksum 3; the masks are disjoint at every
byte position, so reconstruction succeeds. -/
def c2_state : DPState :=
  { buf := 1 :: 0 :: (List.replicate 62 0 ++ [3]),
    buf_error_mask := 0 :: 2 :: List.replicate 63 0,
    read_header := false, rec_cnt := 2, rec_idx := 0,
    rec_primary := false, rec_processed := false,
    data_corrupt := false, data := [],
    rec_primary_buf := 0 :: 2 :: (List.replicate 62 0 ++ [3]),
    rec_primary_error_mask := 1 :: List.replicate 64 0 }

/-- C2 (code bug): both copies fail the checksum, the masks are
disjoint and the OR-reconstruction validates — but `_process_record`
appends the *raw secondary* payload (`record_data` was sliced from
`__buf` before `__recover_record` replaced it), not the reconstructed
payload the claim (and the reconstruction logic itself) calls for. -/
theorem c2_reconstruction_append_bug :
    verify_record c2_state.buf = false ∧
    verify_record c2_state.rec_primary_buf = false ∧
    (recover_record c2_state).2 = true ∧
    (recover_record c2_state).1.buf = 1 :: 2 :: (List.replicate 62 0 ++ [3]) ∧
    (process_record c2_state).1.data = 1 :: 0 :: List.replicate 62 0 ∧
    (process_record c2_state).1.data ≠
      ((recover_record c2_state).1.buf).dropLast ∧
    (process_record c2_state).1.data_corrupt = false := by
  decide

/-- The `peak1` configuration profile (the default). -/
def peak1 : BPConfig :=
  { use_peak := true, training_threshold := 400, min_bit_len := 10,
    hysteresis := 1/2, max_bit_diff := 24/100, range_decay := 99/100,
    continues_resync := true }

/-- An ACTIVE BitProc state: `symbol_len = 32` (the nominal symbol
length), clock anchored at frame 0, one intra-symbol edge already
seen, 7 bits of the current byte received (all zero). -/
def c3_bp : BPState :=
  { bp_clear_state with
    training := false,
    symbol_len := 32,
    training_start := 0,
    edge_cnt := 0,
    edges_within_symbol := 1,
    byte := 0,
    bit_error_mask := 0,
    bit_cnt := 7 }

section
attribute [local semireducible] Rat.add Rat.mul Rat.sub Rat.inv

/-- C3 (code bug): an edge at frame 100 (expected boundary 32,
tolerance 7.68) is a missed symbol, yet the synthesized bit is the
parity of `edges_within_symbol` — here 1, not 0 — and it is handed to
DataProc flagged in the error mask: the byte pair is `(1, 1)` with
`value AND error_mask = 1 ≠ 0`, violating the invariant that
reconstructed bits are 0 in `value` (which
`DataProc.__recover_record`'s own comment assumes). -/
theorem c3_missed_symbol_bit_bug :
    (process_symbol_active peak1 10 c3_bp dp_init 100 90).2.2 = [(1, 1)] ∧
    (1 : Nat) &&& 1 ≠ 0 := by
  decide

/-- A SignalProc state about to see a low-to-high edge: level low,
envelope `[-100, 100]`, tracked peak `-80` at frame 3, current
frame 10. -/
def c7_sp : SPState :=
  { range_max := 100, range_min := -100, level := false,
    peak := -80, peak_idx := 3, frame_idx := 10 }

/-- C8: a sample produces an edge (at most one — the result is a
single `Option`) exactly when either the level is low and the sample
exceeds `threshold + (dyn_range/2)*hysteresis`, or the level is high
and the sample is below `threshold - (dyn_range/2)*hysteresis`; an
edge always flips the tracked level, and without an edge the level is
unchanged. -/
theorem c8_edge_hysteresis (cfg : BPConfig) (s : SPState) (sample : ℚ) :
    ((sp_process_sample cfg s sample).2.isSome = true ↔
      ((s.level = false ∧
          sample > sp_threshold cfg s sample + sp_hband cfg s sample) ∨
       (s.level = true ∧
          sample < sp_threshold cfg s sample - sp_hband cfg s sample))) ∧
    ((sp_process_sample cfg s sample).2 = none →
      (sp_process_sample cfg s sample).1.level = s.level) ∧
    (∀ (p q : Nat) (l : Bool),
      (sp_process_sample cfg s sample).2 = some (p, q, l) →
      l = !s.level ∧ (sp_process_sample cfg s sample).1.level = l ∧
        p = s.frame_idx) := by
  simp only [sp_process_sample]
  split_ifs with h1 h2 <;>
    refine ⟨?_, ?_, ?_⟩ <;>
    simp_all

/-- Witness for C8: the state `c7_sp` with sample 100 (threshold 0.5,
band 49.75) takes a low-to-high edge. -/
theorem c8_edge_hysteresis_witness :
    (sp_process_sample peak1 c7_sp 100).1.level = true :=
  (((c8_edge_hysteresis peak1 c7_sp 100).2.2) 10 3 true (by decide)).2.1

/-- C7 counterexample: at `c7_sp` with sample 100 an edge is emitted
carrying peak frame 3, but afterwards the tracked peak is still `-80`
at frame 3 — it was *not* reset to the current sample (100) and the
current index (10) as the claim states. -/
theorem c7_peak_not_reset_counterexample :
    (sp_process_sample peak1 c7_sp 100).2 = some (10, 3, true) ∧
    (sp_process_sample peak1 c7_sp 100).1.peak = -80 ∧
    (sp_process_sample peak1 c7_sp 100).1.peak_idx = 3 ∧
    ¬ ((sp_process_sample peak1 c7_sp 100).1.peak = 100 ∧
       (sp_process_sample peak1 c7_sp 100).1.peak_idx = 10) := by
  decide

/-- C7 (amended): when an edge is emitted it carries the tracked
`peak_idx` (as updated by the ordinary peak-tracking comparison for
this sample), and the transition leaves `peak` and `peak_idx` exactly
as peak tracking left them — there is no reset on transition. -/
theorem c7_edge_carries_tracked_peak (cfg : BPConfig) (s : SPState)
    (sample : ℚ) (p q : Nat) (l : Bool)
    (h : (sp_process_sample cfg s sample).2 = some (p, q, l)) :
    q = (sp_peak_update s sample).2 ∧
    (sp_process_sample cfg s sample).1.peak = (sp_peak_update s sample).1 ∧
    (sp_process_sample cfg s sample).1.peak_idx = (sp_peak_update s sample).2 := by
  simp only [sp_process_sample] at h ⊢
  split_ifs at h ⊢ <;> simp_all

/-- Witness for C7's amended claim at the concrete edge of the
counterexample. -/
theorem c7_edge_carries_tracked_peak_witness :
    (3 : Nat) = (sp_peak_update c7_sp 100).2 ∧
    (sp_process_sample peak1 c7_sp 100).1.peak = (sp_peak_update c7_sp 100).1 ∧
    (sp_process_sample peak1 c7_sp 100).1.peak_idx = (sp_peak_update c7_sp 100).2 :=
  c7_edge_carries_tracked_peak peak1 c7_sp 100 10 3 true (by decide)

end

/-- C5 (amended): when an entry of the (sorted) line table fails to
decode, the uncaught exception aborts the whole listing loop: the
entries before it are printed unchanged, the failing entry and every
entry after it are not printed. -/
theorem c5_invalid_token_aborts_listing (data : List Nat)
    (pre post : List (Nat × Int)) (x : Nat × Int)
    (h : (decode_entry data x).isOk = false) :
    list_lines data (pre ++ x :: post) = ((list_lines data pre).1, true) := by
  induction pre with
  | nil =>
    cases hd : decode_entry data x with
    | ok v => rw [hd] at h; simp [Except.isOk, Except.toBool] at h
    | error e => simp [list_lines, hd]
  | cons e pre ih =>
    cases hd : decode_entry data e with
    | ok v => simp [list_lines, hd, ih]
    | error e2 => simp [list_lines, hd]

/-- A complete BASIC program image: valid header
(`chkword = 0x3ff9`, `line_table_start = 0x2000`,
`line_table_end = 0x1ff9`), a two-entry line table — line 10 at
offset 16 (body `[0x02, 0x07, 0x00]`, where `0x07` is neither a token
nor an identifier character) and line 20 at offset 19 (body
`[0x02, 0x9c, 0x00]`, i.e. `PRINT`). -/
def basic_img : List Nat :=
  [0x3f, 0xf9, 0x20, 0x00, 0x1f, 0xf9, 0x00, 0x00,
   0x00, 0x0a, 0x20, 0x02,
   0x00, 0x14, 0x20, 0x05,
   0x02, 0x07, 0x00,
   0x02, 0x9c, 0x00]

/-- C5 counterexample: line 20 of `basic_img` decodes fine, yet the
listing prints nothing at all — line 10 (sorted first) hits the
invalid token `0x07` and the uncaught exception kills the loop, so
the other line is *not* listed, contrary to the claim. -/
theorem c5_counterexample :
    parse_header basic_img = .ok (0x3ff9, 0x2000, 0x1ff9, 0) ∧
    parse_line_table basic_img 0x2000 0x1ff9 = .ok [(20, 19), (10, 16)] ∧
    decode_line basic_img 19 = .ok "PRINT " ∧
    decode_line basic_img 16 = .error "Invalid token" ∧
    list_program basic_img [(20, 19), (10, 16)] = ([], true) := by
  decide

/-- Witness for C5's amended claim: with line 20 ahead of the failing
line 10 in iteration order, exactly the lines before the failure are
printed. -/
theorem c5_invalid_token_aborts_listing_witness :
    list_lines basic_img ([(20, 19)] ++ (10, 16) :: []) =
      ([(20, "PRINT ")], true) := by
  rw [c5_invalid_token_aborts_listing basic_img [(20, 19)] [] (10, 16) (by decide)]
  decide

/-- C9 (amended): `parse_line_table` succeeds iff the line-table
length `line_table_start + 1 - line_table_end` is a multiple of 4
that fits the data (`lt_len + 8 ≤ len(data)`); it does *not* require
positivity — a zero or negative multiple of 4 is accepted and yields
an empty table. -/
theorem c9_line_table_length (data : List Nat) (lts lte : Nat) :
    ((parse_line_table data lts lte).isOk = true ↔
      ((lts : Int) + 1 - lte + 8 ≤ (data.length : Int) ∧
       ((lts : Int) + 1 - lte) % 4 = 0)) ∧
    ((lts : Int) + 1 - lte ≤ 0 →
      ((lts : Int) + 1 - lte) % 4 = 0 →
      (lts : Int) + 1 - lte + 8 ≤ (data.length : Int) →
      parse_line_table data lts lte = .ok []) := by
  constructor
  · simp only [parse_line_table, HDR_LEN]
    split_ifs with hb hm
    · simp only [Except.isOk, Except.toBool]
      constructor
      · intro h; exact absurd h (by simp)
      · intro h; omega
    · simp only [Except.isOk, Except.toBool]
      constructor
      · intro h; exact absurd h (by simp)
      · intro h; exact absurd h.2 hm
    · simp only [Except.isOk, Except.toBool]
      constructor
      · intro _; exact ⟨by omega, by omega⟩
      · intro _; trivial
  · intro hnp hm hfit
    simp only [parse_line_table, HDR_LEN]
    split_ifs with hb hm2
    · exfalso; omega
    · exfalso; exact hm2 hm
    · rw [Int.toNat_of_nonpos hnp]; rfl

/-- A header-valid image whose line-table length is 0 (not positive):
`line_table_start = 0x11`, `line_table_end = 0x12`,
`chkword = 0x11 XOR 0x12 = 3`. -/
def c9_img : List Nat := [0, 3, 0, 0x11, 0, 0x12, 0, 0]

/-- C9 counterexample: `lt_len = 0x11 + 1 - 0x12 = 0` is not a
positive multiple of 4, yet parsing does not fail — it returns an
empty table; likewise `lt_len = -4` (start 3, end 8) parses fine. -/
theorem c9_counterexample :
    parse_header c9_img = .ok (3, 0x11, 0x12, 0) ∧
    ((0x11 : Int) + 1 - 0x12 = 0) ∧
    parse_line_table c9_img 0x11 0x12 = .ok [] ∧
    ((3 : Int) + 1 - 8 = -4) ∧
    parse_line_table c9_img 3 8 = .ok [] := by
  decide

/-- Witness for C9's amended claim at `c9_img`. -/
theorem c9_line_table_length_witness :
    parse_line_table c9_img 0x11 0x12 = .ok [] :=
  (c9_line_table_length c9_img 0x11 0x12).2 (by decide) (by decide) (by decide)

end TI99
